import Mathlib

/-!
Shallow embedding of the two example navigation screens of this repository:
`src/example/src/NavigationScreen.tsx` (screen A below) and the unnamed
near-duplicate `src/unnamed/part_000` (screen B below).

Each screen is a React component holding local UI state (overlay selection,
controller handles, flags, margin) and a family of event handlers that update
that state and perform observable effects: snackbar notifications, console
logs, and method calls on the external SDK controllers.  We embed the state as
a record, the handlers as pure functions from state to a new state plus an
effect trace plus a flag recording whether an exception escaped the handler,
and the fallible SDK calls (camera move, navigator initialization, destination
setting) through an oracle `Env` saying which of them fail.
-/

namespace NavSdkExample

/-- A decimal literal exactly as written in the source: `mant / 10 ^ exp`.
Coordinates are only ever passed through to the SDK and compared, never
computed with, so this exact representation is faithful. -/
structure Dec where
  mant : Int
  exp : Nat
deriving DecidableEq, Repr

/-- A latitude/longitude pair (`{lat, lng}` object in the source). -/
structure LatLng where
  lat : Dec
  lng : Dec
deriving DecidableEq, Repr

/-- A destination waypoint (`{position: {lat, lng}}` in the source). -/
structure Waypoint where
  position : LatLng
deriving DecidableEq, Repr

/-- The `RoutingOptions` object built in screen A's `onNavigationReady`. -/
structure RoutingOptions where
  travelMode : Nat
  alternateRoutesStrategy : Nat
  avoidFerries : Bool
  avoidTolls : Bool
deriving DecidableEq, Repr

/-- The `OverlayType` enum of both screens. -/
inductive OverlayType
  | None
  | NavControls
  | MapControls
deriving DecidableEq, Repr

/-- Modelled from the spec: the `RouteStatus` enum is declared in the SDK
library part of this repository (`@googlemaps/react-native-navigation-sdk`)
which is not included under `src/`; the spec describes "a closed set of
route-status failure codes (cancelled, no route found, network error,
location disabled/unknown)" next to the success code the screens match as
`OK`, so we model exactly those six values. -/
inductive RouteStatus
  | OK
  | ROUTE_CANCELED
  | NO_ROUTE_FOUND
  | NETWORK_ERROR
  | LOCATION_DISABLED
  | LOCATION_UNKNOWN
deriving DecidableEq, Repr

/-- The local React state of one screen instance.  Controller handles are
opaque; we stand them in by `Option Nat` (null / a created controller id). -/
structure ScreenState where
  overlayType : OverlayType
  mapViewController : Option Nat
  navigationViewController : Option Nat
  navigationInitialized : Bool
  displayMap : Bool
  margin : Option Int
deriving DecidableEq, Repr

/-- The `useState` initial values of both screens. -/
def initialState : ScreenState :=
  { overlayType := OverlayType.None
    mapViewController := none
    navigationViewController := none
    navigationInitialized := false
    displayMap := false
    margin := none }

/-- A method call on one of the external SDK controller objects. -/
inductive CtrlCall
  | clearMapView
  | clearDestinations
  | cleanup
  | moveCamera (target : LatLng) (zoom : Nat) (bearing : Nat) (tilt : Option Nat)
  | stopGuidance
  | continueToNextDestination
  | startGuidance
  | addMarker (position : LatLng)
  | setDestinations (destinations : List Waypoint) (options : Option RoutingOptions)
  | setNavigationUIEnabled (enabled : Bool)
  | init
  | setMyLocationEnabled (enabled : Bool)
  | getCurrentTimeAndDistance
  | showRouteOverview
  | removePolygon (id : Nat)
  | removeCircle (id : Nat)
  | removePolyline (id : Nat)
deriving DecidableEq, Repr

/-- An observable effect of a handler. -/
inductive Effect
  | snackbar (text : String)
  | log (text : String)
  | ctrl (call : CtrlCall)
deriving DecidableEq, Repr

/-- Result of running one event handler: the updated React state, the effect
trace in order, and whether an exception escaped the handler uncaught. -/
structure HResult where
  state : ScreenState
  effects : List Effect
  thrown : Bool
deriving DecidableEq, Repr

/-- Oracle for the fallible awaited SDK operations. -/
structure Env where
  cameraFails : Bool
  navigatorFails : Bool
  setDestinationsFails : Bool
deriving DecidableEq, Repr

/-- The controller calls occurring in an effect trace, in order. -/
def ctrlCalls (fx : List Effect) : List CtrlCall :=
  fx.filterMap fun e =>
    match e with
    | Effect.ctrl c => some c
    | _ => none

/-- The snackbar texts occurring in an effect trace, in order. -/
def snackbarTexts (fx : List Effect) : List String :=
  fx.filterMap fun e =>
    match e with
    | Effect.snackbar t => some t
    | _ => none

/-- The `marginAmount` constant of both screens. -/
def marginAmount : Int := 50

/-- JavaScript truthiness of the `margin` value (`margin ? … : …`): `null`
and `0` are falsy, every other number is truthy. -/
def marginTruthy : Option Int → Bool
  | some v => v != 0
  | none => false

/-! Handlers whose bodies are textually identical in the two source files are
defined once and used by both step functions. -/

/-- `cleanUpNavigation` (identical in both files): clear the map view when a
map-view controller exists (optional chaining), then clear the destinations,
then tear down the navigation controller. -/
def cleanUpNavigation (s : ScreenState) : List Effect :=
  (match s.mapViewController with
   | some _ => [Effect.ctrl CtrlCall.clearMapView]
   | none => []) ++
    [Effect.ctrl CtrlCall.clearDestinations, Effect.ctrl CtrlCall.cleanup]

/-- `onArrival` (identical in both files). -/
def onArrival (isFinalDestination : Bool) : List Effect :=
  (if isFinalDestination then
    [Effect.log "Final destination reached", Effect.ctrl CtrlCall.stopGuidance]
  else
    [Effect.log "Continuing to the next destination",
     Effect.ctrl CtrlCall.continueToNextDestination,
     Effect.ctrl CtrlCall.startGuidance]) ++ [Effect.snackbar "Arrived"]

/-- `createWayPoints` (identical in both files): add one marker per waypoint
through the optionally-chained map-view controller. -/
def createWayPoints (wayPoints : List LatLng) (s : ScreenState) : List Effect :=
  match s.mapViewController with
  | some _ => wayPoints.map fun w => Effect.ctrl (CtrlCall.addMarker w)
  | none => []

/-- `onNavigationDispose` (identical in both files). -/
def onNavigationDispose (s : ScreenState) : HResult :=
  { state := { s with navigationInitialized := false }
    effects :=
      match s.navigationViewController with
      | some _ => [Effect.ctrl (CtrlCall.setNavigationUIEnabled false)]
      | none => []
    thrown := false }

/-- `onMapReady` (identical in both files): `navigationController.init()` is
awaited inside a `try`; on failure the error is logged and a snackbar shown,
and `setMyLocationEnabled` is skipped. -/
def onMapReady (env : Env) (s : ScreenState) : List Effect :=
  Effect.log "Map is ready, initializing navigator..." ::
    Effect.ctrl CtrlCall.init ::
      (if env.navigatorFails then
        [Effect.log "Error initializing navigator",
         Effect.snackbar "Error initializing navigator"]
      else
        match s.mapViewController with
        | some _ => [Effect.ctrl (CtrlCall.setMyLocationEnabled true)]
        | none => [])

/-- `onNavigationInitError` (identical in both files); the error code is the
numeric value interpolated into the template literal. -/
def onNavigationInitError (errorCode : Int) : List Effect :=
  [Effect.snackbar ("Failed to initialize navigation errorCode: " ++ toString errorCode)]

/-- `onRemainingTimeOrDistanceChanged` (identical in both files);
`navigationController` from the hook is always non-null. -/
def onRemainingTimeOrDistanceChanged : List Effect :=
  [Effect.ctrl CtrlCall.getCurrentTimeAndDistance,
   Effect.log "currentTimeAndDistance",
   Effect.log "called onRemainingTimeOrDistanceChanged"]

/-- The five dedicated route-failure handlers and the simple snackbar
handlers (identical in both files). -/
def onRouteCancelled : List Effect := [Effect.snackbar "Error: Route Cancelled"]

/-- `onNoRouteFound` handler. -/
def onNoRouteFound : List Effect := [Effect.snackbar "Error: No Route Found"]

/-- `onNetworkError` handler. -/
def onNetworkError : List Effect := [Effect.snackbar "Error: Network Error"]

/-- `onLocationDisabled` handler. -/
def onLocationDisabled : List Effect := [Effect.snackbar "Error: Location Disabled"]

/-- `onLocationUnknown` handler. -/
def onLocationUnknown : List Effect := [Effect.snackbar "Error: Location Unknown"]

/-- `onRouteChanged` handler. -/
def onRouteChanged : List Effect := [Effect.snackbar "Route Changed"]

/-- `onTrafficUpdated` handler. -/
def onTrafficUpdated : List Effect := [Effect.snackbar "Traffic Updated"]

/-- `onStartGuidance` handler. -/
def onStartGuidance : List Effect := [Effect.snackbar "Start Guidance"]

/-- Map-view click handlers from `mapViewCallbacks` (identical in both
files); polygon/circle/polyline clicks remove the clicked shape through the
optionally-chained map-view controller. -/
def onPolygonClick (id : Nat) (s : ScreenState) : List Effect :=
  Effect.log "onPolygonClick" ::
    (match s.mapViewController with
     | some _ => [Effect.ctrl (CtrlCall.removePolygon id)]
     | none => [])

/-- `onCircleClick` handler. -/
def onCircleClick (id : Nat) (s : ScreenState) : List Effect :=
  Effect.log "onCircleClick" ::
    (match s.mapViewController with
     | some _ => [Effect.ctrl (CtrlCall.removeCircle id)]
     | none => [])

/-- `onPolylineClick` handler. -/
def onPolylineClick (id : Nat) (s : ScreenState) : List Effect :=
  Effect.log "onPolylineClick" ::
    (match s.mapViewController with
     | some _ => [Effect.ctrl (CtrlCall.removePolyline id)]
     | none => [])

/-! Screen A (`src/example/src/NavigationScreen.tsx`) specifics. -/

/-- The camera position of screen A's `moveCameraToStartingSpot`. -/
def cameraMoveA : CtrlCall :=
  CtrlCall.moveCamera ⟨⟨328271135, 7⟩, ⟨-96830288, 6⟩⟩ 10 0 (some 0)

/-- Screen A's `moveCameraToStartingSpot`: logs, then when a map-view
controller exists moves the camera inside a `try`; a camera failure is caught
locally, logged and surfaced as a snackbar, so nothing escapes. -/
def moveCameraToStartingSpotA (env : Env) (s : ScreenState) : List Effect :=
  Effect.log "Ryan - moveCameraToStartingSpot" ::
    (match s.mapViewController with
     | some _ =>
        Effect.log "Ryan - moveCameraToStartingSpot - mapViewController" ::
          Effect.ctrl cameraMoveA ::
            (if env.cameraFails then
              [Effect.log "Error moving camera", Effect.snackbar "Error moving camera"]
            else [])
     | none => [])

/-- The thirteen hardcoded waypoints of screen A's `onNavigationReady`. -/
def wayPointsA : List LatLng :=
  [⟨⟨3278889, 5⟩, ⟨-96906553, 6⟩⟩,
   ⟨⟨327215158, 7⟩, ⟨-968094594, 7⟩⟩,
   ⟨⟨32709446, 6⟩, ⟨-96746567, 6⟩⟩,
   ⟨⟨32842525, 6⟩, ⟨-96810209, 6⟩⟩,
   ⟨⟨32770895, 6⟩, ⟨-96697785, 6⟩⟩,
   ⟨⟨32793867, 6⟩, ⟨-96767341, 6⟩⟩,
   ⟨⟨32854362, 6⟩, ⟨-96744946, 6⟩⟩,
   ⟨⟨32845018, 6⟩, ⟨-96808388, 6⟩⟩,
   ⟨⟨32925, 3⟩, ⟨-96846349, 6⟩⟩,
   ⟨⟨32901702, 6⟩, ⟨-96982005, 6⟩⟩,
   ⟨⟨32778306, 6⟩, ⟨-96697305, 6⟩⟩,
   ⟨⟨327449539, 7⟩, ⟨-968513408, 7⟩⟩,
   ⟨⟨327852848, 7⟩, ⟨-968186504, 7⟩⟩]

/-- The `RoutingOptions` literal of screen A's `onNavigationReady`. -/
def routingOptionsA : RoutingOptions :=
  { travelMode := 0
    alternateRoutesStrategy := 1
    avoidFerries := true
    avoidTolls := false }

/-- Screen A's `onNavigationReady`: log, set the initialized flag, recenter
the camera (failures caught inside), set the thirteen destinations with
routing options inside a `try` whose `catch` logs and shows a snackbar, then
add the waypoint markers. -/
def onNavigationReadyA (env : Env) (s : ScreenState) : HResult :=
  { state := { s with navigationInitialized := true }
    effects :=
      Effect.log "onNavigationReady" ::
        moveCameraToStartingSpotA env s ++
          [Effect.ctrl (CtrlCall.setDestinations (wayPointsA.map fun w => ⟨w⟩)
            (some routingOptionsA))] ++
          (if env.setDestinationsFails then
            [Effect.log "Error setting destinations",
             Effect.snackbar "Error setting destinations"]
          else []) ++
          createWayPoints wayPointsA s
    thrown := false }

/-- Screen A's `onRouteStatusOk`: snackbar then recenter the camera. -/
def onRouteStatusOkA (env : Env) (s : ScreenState) : List Effect :=
  Effect.snackbar "Route created" :: moveCameraToStartingSpotA env s

/-- Screen A's `onRouteStatusResult` dispatch.  Over the spec-modelled closed
`RouteStatus` the `default` branch of the source switch (which would log and
call `onStartingGuidanceError`) is unreachable, so the match is total on the
six codes. -/
def onRouteStatusResultA (routeStatus : RouteStatus) (env : Env) (s : ScreenState) :
    List Effect :=
  match routeStatus with
  | RouteStatus.OK => onRouteStatusOkA env s
  | RouteStatus.ROUTE_CANCELED => onRouteCancelled
  | RouteStatus.NO_ROUTE_FOUND => onNoRouteFound
  | RouteStatus.NETWORK_ERROR => onNetworkError
  | RouteStatus.LOCATION_DISABLED => onLocationDisabled
  | RouteStatus.LOCATION_UNKNOWN => onLocationUnknown

/-- Screen A's `onRecenterButtonClick`: log and recenter the camera. -/
def onRecenterButtonClickA (env : Env) (s : ScreenState) : List Effect :=
  Effect.log "onRecenterButtonClick" :: moveCameraToStartingSpotA env s

/-! Screen B (`src/unnamed/part_000`) specifics. -/

/-- The camera position of screen B's `moveCameraToStartingSpot` (no tilt). -/
def cameraMoveB : CtrlCall :=
  CtrlCall.moveCamera ⟨⟨42060047, 6⟩, ⟨-87824613, 6⟩⟩ 10 0 none

/-- Screen B's `moveCameraToStartingSpot`: no logging and no `try`; when a
map-view controller exists and the awaited camera move rejects, the exception
propagates to the caller (second component `true`). -/
def moveCameraToStartingSpotB (env : Env) (s : ScreenState) : List Effect × Bool :=
  match s.mapViewController with
  | some _ => ([Effect.ctrl cameraMoveB], env.cameraFails)
  | none => ([], false)

/-- The three hardcoded waypoints of screen B's `onNavigationReady`. -/
def wayPointsB : List LatLng :=
  [⟨⟨4202265096971242, 14⟩, ⟨-8788297802209854, 14⟩⟩,
   ⟨⟨4202367115228353, 14⟩, ⟨-8778227012604475, 14⟩⟩,
   ⟨⟨42100817565947494, 15⟩, ⟨-8786787182092667, 14⟩⟩]

/-- Screen B's `onNavigationReady`: log, set the initialized flag, then await
the unguarded camera move — if it throws, the handler aborts there and the
exception escapes.  Otherwise it calls `setDestinations` without options (not
awaited and unguarded, so a rejection there never re-enters the handler),
adds the waypoint markers, and shows the route overview through the
optionally-chained navigation-view controller. -/
def onNavigationReadyB (env : Env) (s : ScreenState) : HResult :=
  let cam := moveCameraToStartingSpotB env s
  if cam.2 then
    { state := { s with navigationInitialized := true }
      effects := Effect.log "onNavigationReady" :: cam.1
      thrown := true }
  else
    { state := { s with navigationInitialized := true }
      effects :=
        Effect.log "onNavigationReady" ::
          cam.1 ++
            [Effect.ctrl (CtrlCall.setDestinations (wayPointsB.map fun w => ⟨w⟩) none)] ++
            createWayPoints wayPointsB s ++
            (match s.navigationViewController with
             | some _ => [Effect.ctrl CtrlCall.showRouteOverview]
             | none => [])
      thrown := false }

/-- Screen B's `onRouteStatusOk`: snackbar only. -/
def onRouteStatusOkB : List Effect := [Effect.snackbar "Route created"]

/-- Screen B's `onRouteStatusResult` dispatch; same shape as screen A's. -/
def onRouteStatusResultB (routeStatus : RouteStatus) : List Effect :=
  match routeStatus with
  | RouteStatus.OK => onRouteStatusOkB
  | RouteStatus.ROUTE_CANCELED => onRouteCancelled
  | RouteStatus.NO_ROUTE_FOUND => onNoRouteFound
  | RouteStatus.NETWORK_ERROR => onNetworkError
  | RouteStatus.LOCATION_DISABLED => onLocationDisabled
  | RouteStatus.LOCATION_UNKNOWN => onLocationUnknown

/-- Screen B's `onRecenterButtonClick`: log only. -/
def onRecenterButtonClickB : List Effect := [Effect.log "onRecenterButtonClick"]

/-! The event alphabet shared by both screens, and the step functions. -/

/-- Every externally-triggered event of one screen instance: SDK callbacks,
map-view callbacks, navigation-view callbacks, UI actions, and the
focus/blur lifecycle events. -/
inductive Event
  | mapViewControllerCreated (c : Nat)
  | navigationViewControllerCreated (c : Nat)
  | mapReady
  | navigationReady
  | navigationDispose
  | navigationInitError (errorCode : Int)
  | routeStatusResult (routeStatus : RouteStatus)
  | arrival (isFinalDestination : Bool)
  | routeChanged
  | trafficUpdated
  | startGuidance
  | remainingTimeOrDistanceChanged
  | locationChanged
  | rawLocationChanged
  | turnByTurn
  | recenterButtonClick
  | showNavControlsClick
  | showMapsControlsClick
  | closeOverlayAction
  | marginSwitchToggle
  | screenFocus
  | screenBlur
  | markerClick
  | polygonClick (id : Nat)
  | circleClick (id : Nat)
  | polylineClick (id : Nat)
  | markerInfoWindowTapped
  | mapClick
deriving DecidableEq, Repr

/-- An effect-only handler result: state unchanged, nothing thrown. -/
def fxOnly (s : ScreenState) (fx : List Effect) : HResult :=
  { state := s, effects := fx, thrown := false }

/-- One step of screen A (`NavigationScreen.tsx`): dispatch an event to its
handler. -/
def stepA (e : Event) (env : Env) (s : ScreenState) : HResult :=
  match e with
  | Event.mapViewControllerCreated c =>
      fxOnly { s with mapViewController := some c } []
  | Event.navigationViewControllerCreated c =>
      fxOnly { s with navigationViewController := some c } []
  | Event.mapReady => fxOnly s (onMapReady env s)
  | Event.navigationReady => onNavigationReadyA env s
  | Event.navigationDispose => onNavigationDispose s
  | Event.navigationInitError errorCode => fxOnly s (onNavigationInitError errorCode)
  | Event.routeStatusResult routeStatus =>
      fxOnly s (onRouteStatusResultA routeStatus env s)
  | Event.arrival isFinalDestination => fxOnly s (onArrival isFinalDestination)
  | Event.routeChanged => fxOnly s onRouteChanged
  | Event.trafficUpdated => fxOnly s onTrafficUpdated
  | Event.startGuidance => fxOnly s onStartGuidance
  | Event.remainingTimeOrDistanceChanged => fxOnly s onRemainingTimeOrDistanceChanged
  | Event.locationChanged => fxOnly s [Effect.log "onLocationChanged"]
  | Event.rawLocationChanged => fxOnly s [Effect.log "onRawLocationChanged"]
  | Event.turnByTurn => fxOnly s [Effect.log "onTurnByTurn"]
  | Event.recenterButtonClick => fxOnly s (onRecenterButtonClickA env s)
  | Event.showNavControlsClick =>
      fxOnly { s with overlayType := OverlayType.NavControls } []
  | Event.showMapsControlsClick =>
      fxOnly { s with overlayType := OverlayType.MapControls } []
  | Event.closeOverlayAction =>
      fxOnly { s with overlayType := OverlayType.None } []
  | Event.marginSwitchToggle =>
      fxOnly { s with margin := if marginTruthy s.margin then none else some marginAmount } []
  | Event.screenFocus => fxOnly { s with displayMap := true } []
  | Event.screenBlur =>
      fxOnly { s with displayMap := false } (cleanUpNavigation s)
  | Event.markerClick => fxOnly s [Effect.log "onMarkerClick"]
  | Event.polygonClick id => fxOnly s (onPolygonClick id s)
  | Event.circleClick id => fxOnly s (onCircleClick id s)
  | Event.polylineClick id => fxOnly s (onPolylineClick id s)
  | Event.markerInfoWindowTapped => fxOnly s [Effect.log "onMarkerInfoWindowTapped"]
  | Event.mapClick => fxOnly s [Effect.log "onMapClick"]

/-- One step of screen B (`part_000`): identical to screen A except for
`onNavigationReady`, the route-status-OK branch, and the recenter button. -/
def stepB (e : Event) (env : Env) (s : ScreenState) : HResult :=
  match e with
  | Event.mapViewControllerCreated c =>
      fxOnly { s with mapViewController := some c } []
  | Event.navigationViewControllerCreated c =>
      fxOnly { s with navigationViewController := some c } []
  | Event.mapReady => fxOnly s (onMapReady env s)
  | Event.navigationReady => onNavigationReadyB env s
  | Event.navigationDispose => onNavigationDispose s
  | Event.navigationInitError errorCode => fxOnly s (onNavigationInitError errorCode)
  | Event.routeStatusResult routeStatus =>
      fxOnly s (onRouteStatusResultB routeStatus)
  | Event.arrival isFinalDestination => fxOnly s (onArrival isFinalDestination)
  | Event.routeChanged => fxOnly s onRouteChanged
  | Event.trafficUpdated => fxOnly s onTrafficUpdated
  | Event.startGuidance => fxOnly s onStartGuidance
  | Event.remainingTimeOrDistanceChanged => fxOnly s onRemainingTimeOrDistanceChanged
  | Event.locationChanged => fxOnly s [Effect.log "onLocationChanged"]
  | Event.rawLocationChanged => fxOnly s [Effect.log "onRawLocationChanged"]
  | Event.turnByTurn => fxOnly s [Effect.log "onTurnByTurn"]
  | Event.recenterButtonClick => fxOnly s onRecenterButtonClickB
  | Event.showNavControlsClick =>
      fxOnly { s with overlayType := OverlayType.NavControls } []
  | Event.showMapsControlsClick =>
      fxOnly { s with overlayType := OverlayType.MapControls } []
  | Event.closeOverlayAction =>
      fxOnly { s with overlayType := OverlayType.None } []
  | Event.marginSwitchToggle =>
      fxOnly { s with margin := if marginTruthy s.margin then none else some marginAmount } []
  | Event.screenFocus => fxOnly { s with displayMap := true } []
  | Event.screenBlur =>
      fxOnly { s with displayMap := false } (cleanUpNavigation s)
  | Event.markerClick => fxOnly s [Effect.log "onMarkerClick"]
  | Event.polygonClick id => fxOnly s (onPolygonClick id s)
  | Event.circleClick id => fxOnly s (onCircleClick id s)
  | Event.polylineClick id => fxOnly s (onPolylineClick id s)
  | Event.markerInfoWindowTapped => fxOnly s [Effect.log "onMarkerInfoWindowTapped"]
  | Event.mapClick => fxOnly s [Effect.log "onMapClick"]

/-- Run screen A over a sequence of events, keeping only the state. -/
def runA (env : Env) : List Event → ScreenState → ScreenState
  | [], s => s
  | e :: es, s => runA env es (stepA e env s).state

/-! The render conditions of the returned JSX (identical in both files). -/

/-- The render guard of the navigation-controls overlay: the JSX renders it
only when `navigationViewController != null && navigationController != null
&& navigationInitialized`, and the modal is visible when additionally
`overlayType === OverlayType.NavControls`.  The navigation controller comes
from the SDK hook, so its presence is a parameter. -/
def navControlsVisible (navigationControllerPresent : Bool) (s : ScreenState) : Bool :=
  s.navigationViewController.isSome && navigationControllerPresent &&
    s.navigationInitialized && (s.overlayType == OverlayType.NavControls)

/-- The render guard of the maps-controls overlay: rendered when
`mapViewController != null`, visible when `overlayType === MapControls`. -/
def mapControlsVisible (s : ScreenState) : Bool :=
  s.mapViewController.isSome && (s.overlayType == OverlayType.MapControls)

/-- The `disabled` prop of the Navigation button: `!navigationInitialized`. -/
def navButtonDisabled (s : ScreenState) : Bool :=
  !s.navigationInitialized

/-! The listener-registration round trip of the `useEffect` (identical in
both files). -/

/-- The names of the handlers bundled into the `navigationCallbacks` table,
in the order they appear in the object literal. -/
inductive HandlerName
  | onRouteChanged
  | onArrival
  | onNavigationReady
  | onNavigationInitError
  | onLocationChanged
  | onRawLocationChanged
  | onTrafficUpdated
  | onRouteStatusResult
  | onStartGuidance
  | onRemainingTimeOrDistanceChanged
  | onTurnByTurn
deriving DecidableEq, Repr

/-- The `navigationCallbacks` table built by `useMemo`. -/
def navigationCallbacks : List HandlerName :=
  [HandlerName.onRouteChanged,
   HandlerName.onArrival,
   HandlerName.onNavigationReady,
   HandlerName.onNavigationInitError,
   HandlerName.onLocationChanged,
   HandlerName.onRawLocationChanged,
   HandlerName.onTrafficUpdated,
   HandlerName.onRouteStatusResult,
   HandlerName.onStartGuidance,
   HandlerName.onRemainingTimeOrDistanceChanged,
   HandlerName.onTurnByTurn]

/-- A registration action against the external navigation event source. -/
inductive ListenerAction
  | add (tbl : List HandlerName)
  | remove (tbl : List HandlerName)
deriving DecidableEq, Repr

/-- Effect of a registration action on the event source's registry of
callback tables: `addListeners` registers the table, `removeListeners`
deregisters (the first occurrence of) it. -/
def applyListenerAction : ListenerAction → List (List HandlerName) → List (List HandlerName)
  | ListenerAction.add tbl, reg => tbl :: reg
  | ListenerAction.remove tbl, reg => reg.erase tbl

/-- The `useEffect` body: `addListeners(navigationCallbacks)`. -/
def listenersEffectSetup : ListenerAction :=
  ListenerAction.add navigationCallbacks

/-- The `useEffect` cleanup: `removeListeners(navigationCallbacks)`. -/
def listenersEffectTeardown : ListenerAction :=
  ListenerAction.remove navigationCallbacks

/-! Error-notification bookkeeping for the error-handling claims. -/

/-- A snackbar text that reads as an error notification: it begins with
`Error` or with `Failed` (stated over the character lists so that it
evaluates by `decide`). -/
def isErrorText (t : String) : Bool :=
  "Error".data.isPrefixOf t.data || "Failed".data.isPrefixOf t.data

/-- The five route-failure snackbar texts. -/
def routeFailureTexts : List String :=
  ["Error: Route Cancelled", "Error: No Route Found", "Error: Network Error",
   "Error: Location Disabled", "Error: Location Unknown"]

/-- An error text accounted for by the spec's closed error set: a
route-status failure, a camera-move failure, a destination-setting failure,
or an SDK initialization failure. -/
def allowedErrorText (t : String) : Prop :=
  t ∈ routeFailureTexts ∨
    t = "Error moving camera" ∨
    t = "Error setting destinations" ∨
    t = "Error initializing navigator" ∨
    ∃ errorCode : Int, t = "Failed to initialize navigation errorCode: " ++ toString errorCode

/-! Concrete sample environments and states used to instantiate theorems. -/

/-- Environment where every SDK operation succeeds. -/
def envOk : Env :=
  { cameraFails := false, navigatorFails := false, setDestinationsFails := false }

/-- Environment where the awaited camera move rejects. -/
def envCameraFail : Env :=
  { cameraFails := true, navigatorFails := false, setDestinationsFails := false }

/-- Environment where `navigationController.init()` rejects. -/
def envNavigatorFail : Env :=
  { cameraFails := false, navigatorFails := true, setDestinationsFails := false }

/-- Environment where `setDestinations` rejects. -/
def envDestinationsFail : Env :=
  { cameraFails := false, navigatorFails := true, setDestinationsFails := true }

/-- State after the map-view controller has been created. -/
def sWithMap : ScreenState :=
  { initialState with mapViewController := some 0 }

/-- State after both controllers have been created. -/
def sBothCtrls : ScreenState :=
  { initialState with mapViewController := some 0, navigationViewController := some 1 }

/-- State after both controllers are created, navigation is initialized, and
the navigation-controls overlay is selected. -/
def sNavReady : ScreenState :=
  { overlayType := OverlayType.NavControls
    mapViewController := some 0
    navigationViewController := some 1
    navigationInitialized := true
    displayMap := true
    margin := none }

/-! Helper lemmas. -/

/-- No event of screen A clears the map-view controller handle. -/
theorem stepA_mapViewController_mono (e : Event) (env : Env) (s : ScreenState)
    (h : s.mapViewController.isSome = true) :
    (stepA e env s).state.mapViewController.isSome = true := by
  cases e <;>
    simp only [stepA, fxOnly, onNavigationReadyA, onNavigationDispose] <;>
    first
      | exact h
      | simp

/-- No event of screen A clears the navigation-view controller handle. -/
theorem stepA_navigationViewController_mono (e : Event) (env : Env) (s : ScreenState)
    (h : s.navigationViewController.isSome = true) :
    (stepA e env s).state.navigationViewController.isSome = true := by
  cases e <;>
    simp only [stepA, fxOnly, onNavigationReadyA, onNavigationDispose] <;>
    first
      | exact h
      | simp

/-- Once the map-view controller handle is non-null it stays non-null over
any event sequence. -/
theorem runA_mapViewController_mono (env : Env) (es : List Event) (s : ScreenState)
    (h : s.mapViewController.isSome = true) :
    (runA env es s).mapViewController.isSome = true := by
  induction es generalizing s with
  | nil => exact h
  | cons e es ih => exact ih _ (stepA_mapViewController_mono e env s h)

/-- Once the navigation-view controller handle is non-null it stays non-null
over any event sequence. -/
theorem runA_navigationViewController_mono (env : Env) (es : List Event) (s : ScreenState)
    (h : s.navigationViewController.isSome = true) :
    (runA env es s).navigationViewController.isSome = true := by
  induction es generalizing s with
  | nil => exact h
  | cons e es ih => exact ih _ (stepA_navigationViewController_mono e env s h)

/-- Every event of screen A keeps the margin in `{null, marginAmount}`. -/
theorem stepA_margin_inv (e : Event) (env : Env) (s : ScreenState)
    (h : s.margin = none ∨ s.margin = some marginAmount) :
    (stepA e env s).state.margin = none ∨
      (stepA e env s).state.margin = some marginAmount := by
  cases e <;>
    simp only [stepA, fxOnly, onNavigationReadyA, onNavigationDispose] <;>
    first
      | exact h
      | (cases marginTruthy s.margin <;> simp)

/-- Over any event sequence from the initial state the margin is either null
or the fixed `marginAmount`. -/
theorem runA_margin_inv (env : Env) (es : List Event) (s : ScreenState)
    (h : s.margin = none ∨ s.margin = some marginAmount) :
    (runA env es s).margin = none ∨ (runA env es s).margin = some marginAmount := by
  induction es generalizing s with
  | nil => exact h
  | cons e es ih => exact ih _ (stepA_margin_inv e env s h)

/-- A camera-move failure text is in the spec's closed error set. -/
theorem allowed_camera : allowedErrorText "Error moving camera" :=
  Or.inr (Or.inl rfl)

/-- A destination-setting failure text is in the spec's closed error set. -/
theorem allowed_destinations : allowedErrorText "Error setting destinations" :=
  Or.inr (Or.inr (Or.inl rfl))

/-- A navigator-initialization failure text is in the spec's closed error set. -/
theorem allowed_navigator : allowedErrorText "Error initializing navigator" :=
  Or.inr (Or.inr (Or.inr (Or.inl rfl)))

/-- A route-failure text is in the spec's closed error set. -/
theorem allowed_route_failure (t : String) (h : t ∈ routeFailureTexts) :
    allowedErrorText t :=
  Or.inl h

/-- An SDK-initialization error-code text is in the spec's closed error set. -/
theorem allowed_init_code (errorCode : Int) :
    allowedErrorText ("Failed to initialize navigation errorCode: " ++ toString errorCode) :=
  Or.inr (Or.inr (Or.inr (Or.inr ⟨errorCode, rfl⟩)))

/-- Every error-reading snackbar screen A can ever show is in the spec's
closed error set. -/
theorem stepA_error_snackbars (e : Event) (env : Env) (s : ScreenState) (t : String)
    (ht : t ∈ snackbarTexts (stepA e env s).effects) (herr : isErrorText t = true) :
    allowedErrorText t := by
  cases e with
  | mapReady =>
      cases hn : env.navigatorFails <;>
        rcases hm : s.mapViewController with _ | c <;>
          simp [stepA, fxOnly, onMapReady, snackbarTexts, hn, hm] at ht
      all_goals (subst ht; exact allowed_navigator)
  | navigationReady =>
      rcases hm : s.mapViewController with _ | c <;>
        cases hc : env.cameraFails <;>
          cases hd : env.setDestinationsFails <;>
            simp [stepA, onNavigationReadyA, moveCameraToStartingSpotA, createWayPoints,
                  wayPointsA, snackbarTexts, hm, hc, hd] at ht
      all_goals
        first
          | (subst ht; first | exact allowed_camera | exact allowed_destinations)
          | (rcases ht with ht | ht <;> subst ht <;>
              first | exact allowed_camera | exact allowed_destinations)
  | navigationInitError errorCode =>
      simp [stepA, fxOnly, onNavigationInitError, snackbarTexts] at ht
      subst ht
      exact allowed_init_code errorCode
  | routeStatusResult st =>
      cases st with
      | OK =>
          rcases hm : s.mapViewController with _ | c <;>
            cases hc : env.cameraFails <;>
              simp [stepA, fxOnly, onRouteStatusResultA, onRouteStatusOkA,
                    moveCameraToStartingSpotA, snackbarTexts, hm, hc] at ht
          all_goals
            first
              | (subst ht; exact absurd herr (by decide))
              | (rcases ht with ht | ht <;> subst ht <;>
                  first | exact absurd herr (by decide) | exact allowed_camera)
      | ROUTE_CANCELED =>
          simp [stepA, fxOnly, onRouteStatusResultA, onRouteCancelled, snackbarTexts] at ht
          subst ht
          exact allowed_route_failure _ (by decide)
      | NO_ROUTE_FOUND =>
          simp [stepA, fxOnly, onRouteStatusResultA, onNoRouteFound, snackbarTexts] at ht
          subst ht
          exact allowed_route_failure _ (by decide)
      | NETWORK_ERROR =>
          simp [stepA, fxOnly, onRouteStatusResultA, onNetworkError, snackbarTexts] at ht
          subst ht
          exact allowed_route_failure _ (by decide)
      | LOCATION_DISABLED =>
          simp [stepA, fxOnly, onRouteStatusResultA, onLocationDisabled, snackbarTexts] at ht
          subst ht
          exact allowed_route_failure _ (by decide)
      | LOCATION_UNKNOWN =>
          simp [stepA, fxOnly, onRouteStatusResultA, onLocationUnknown, snackbarTexts] at ht
          subst ht
          exact allowed_route_failure _ (by decide)
  | arrival b =>
      cases b <;> simp [stepA, fxOnly, onArrival, snackbarTexts] at ht <;>
        (subst ht; exact absurd herr (by decide))
  | routeChanged =>
      simp [stepA, fxOnly, onRouteChanged, snackbarTexts] at ht
      subst ht
      exact absurd herr (by decide)
  | trafficUpdated =>
      simp [stepA, fxOnly, onTrafficUpdated, snackbarTexts] at ht
      subst ht
      exact absurd herr (by decide)
  | startGuidance =>
      simp [stepA, fxOnly, onStartGuidance, snackbarTexts] at ht
      subst ht
      exact absurd herr (by decide)
  | recenterButtonClick =>
      rcases hm : s.mapViewController with _ | c <;>
        cases hc : env.cameraFails <;>
          simp [stepA, fxOnly, onRecenterButtonClickA, moveCameraToStartingSpotA,
                snackbarTexts, hm, hc] at ht
      all_goals (subst ht; exact allowed_camera)
  | mapViewControllerCreated c => simp [stepA, fxOnly, snackbarTexts] at ht
  | navigationViewControllerCreated c => simp [stepA, fxOnly, snackbarTexts] at ht
  | navigationDispose =>
      rcases hv : s.navigationViewController with _ | c <;>
        simp [stepA, onNavigationDispose, snackbarTexts, hv] at ht
  | remainingTimeOrDistanceChanged =>
      simp [stepA, fxOnly, onRemainingTimeOrDistanceChanged, snackbarTexts] at ht
  | locationChanged => simp [stepA, fxOnly, snackbarTexts] at ht
  | rawLocationChanged => simp [stepA, fxOnly, snackbarTexts] at ht
  | turnByTurn => simp [stepA, fxOnly, snackbarTexts] at ht
  | showNavControlsClick => simp [stepA, fxOnly, snackbarTexts] at ht
  | showMapsControlsClick => simp [stepA, fxOnly, snackbarTexts] at ht
  | closeOverlayAction => simp [stepA, fxOnly, snackbarTexts] at ht
  | marginSwitchToggle => simp [stepA, fxOnly, snackbarTexts] at ht
  | screenFocus => simp [stepA, fxOnly, snackbarTexts] at ht
  | screenBlur =>
      rcases hm : s.mapViewController with _ | c <;>
        simp [stepA, fxOnly, cleanUpNavigation, snackbarTexts, hm] at ht
  | markerClick => simp [stepA, fxOnly, snackbarTexts] at ht
  | polygonClick id =>
      rcases hm : s.mapViewController with _ | c <;>
        simp [stepA, fxOnly, onPolygonClick, snackbarTexts, hm] at ht
  | circleClick id =>
      rcases hm : s.mapViewController with _ | c <;>
        simp [stepA, fxOnly, onCircleClick, snackbarTexts, hm] at ht
  | polylineClick id =>
      rcases hm : s.mapViewController with _ | c <;>
        simp [stepA, fxOnly, onPolylineClick, snackbarTexts, hm] at ht
  | markerInfoWindowTapped => simp [stepA, fxOnly, snackbarTexts] at ht
  | mapClick => simp [stepA, fxOnly, snackbarTexts] at ht

/-- Every error-reading snackbar screen B can ever show is in the spec's
closed error set. -/
theorem stepB_error_snackbars (e : Event) (env : Env) (s : ScreenState) (t : String)
    (ht : t ∈ snackbarTexts (stepB e env s).effects) (herr : isErrorText t = true) :
    allowedErrorText t := by
  cases e with
  | mapReady =>
      cases hn : env.navigatorFails <;>
        rcases hm : s.mapViewController with _ | c <;>
          simp [stepB, fxOnly, onMapReady, snackbarTexts, hn, hm] at ht
      all_goals (subst ht; exact allowed_navigator)
  | navigationReady =>
      rcases hm : s.mapViewController with _ | c <;>
        cases hc : env.cameraFails <;>
          rcases hv : s.navigationViewController with _ | c2 <;>
            simp [stepB, onNavigationReadyB, moveCameraToStartingSpotB, createWayPoints,
                  wayPointsB, snackbarTexts, hm, hc, hv] at ht
  | navigationInitError errorCode =>
      simp [stepB, fxOnly, onNavigationInitError, snackbarTexts] at ht
      subst ht
      exact allowed_init_code errorCode
  | routeStatusResult st =>
      cases st with
      | OK =>
          simp [stepB, fxOnly, onRouteStatusResultB, onRouteStatusOkB, snackbarTexts] at ht
          subst ht
          exact absurd herr (by decide)
      | ROUTE_CANCELED =>
          simp [stepB, fxOnly, onRouteStatusResultB, onRouteCancelled, snackbarTexts] at ht
          subst ht
          exact allowed_route_failure _ (by decide)
      | NO_ROUTE_FOUND =>
          simp [stepB, fxOnly, onRouteStatusResultB, onNoRouteFound, snackbarTexts] at ht
          subst ht
          exact allowed_route_failure _ (by decide)
      | NETWORK_ERROR =>
          simp [stepB, fxOnly, onRouteStatusResultB, onNetworkError, snackbarTexts] at ht
          subst ht
          exact allowed_route_failure _ (by decide)
      | LOCATION_DISABLED =>
          simp [stepB, fxOnly, onRouteStatusResultB, onLocationDisabled, snackbarTexts] at ht
          subst ht
          exact allowed_route_failure _ (by decide)
      | LOCATION_UNKNOWN =>
          simp [stepB, fxOnly, onRouteStatusResultB, onLocationUnknown, snackbarTexts] at ht
          subst ht
          exact allowed_route_failure _ (by decide)
  | arrival b =>
      cases b <;> simp [stepB, fxOnly, onArrival, snackbarTexts] at ht <;>
        (subst ht; exact absurd herr (by decide))
  | routeChanged =>
      simp [stepB, fxOnly, onRouteChanged, snackbarTexts] at ht
      subst ht
      exact absurd herr (by decide)
  | trafficUpdated =>
      simp [stepB, fxOnly, onTrafficUpdated, snackbarTexts] at ht
      subst ht
      exact absurd herr (by decide)
  | startGuidance =>
      simp [stepB, fxOnly, onStartGuidance, snackbarTexts] at ht
      subst ht
      exact absurd herr (by decide)
  | recenterButtonClick => simp [stepB, fxOnly, onRecenterButtonClickB, snackbarTexts] at ht
  | mapViewControllerCreated c => simp [stepB, fxOnly, snackbarTexts] at ht
  | navigationViewControllerCreated c => simp [stepB, fxOnly, snackbarTexts] at ht
  | navigationDispose =>
      rcases hv : s.navigationViewController with _ | c <;>
        simp [stepB, onNavigationDispose, snackbarTexts, hv] at ht
  | remainingTimeOrDistanceChanged =>
      simp [stepB, fxOnly, onRemainingTimeOrDistanceChanged, snackbarTexts] at ht
  | locationChanged => simp [stepB, fxOnly, snackbarTexts] at ht
  | rawLocationChanged => simp [stepB, fxOnly, snackbarTexts] at ht
  | turnByTurn => simp [stepB, fxOnly, snackbarTexts] at ht
  | showNavControlsClick => simp [stepB, fxOnly, snackbarTexts] at ht
  | showMapsControlsClick => simp [stepB, fxOnly, snackbarTexts] at ht
  | closeOverlayAction => simp [stepB, fxOnly, snackbarTexts] at ht
  | marginSwitchToggle => simp [stepB, fxOnly, snackbarTexts] at ht
  | screenFocus => simp [stepB, fxOnly, snackbarTexts] at ht
  | screenBlur =>
      rcases hm : s.mapViewController with _ | c <;>
        simp [stepB, fxOnly, cleanUpNavigation, snackbarTexts, hm] at ht
  | markerClick => simp [stepB, fxOnly, snackbarTexts] at ht
  | polygonClick id =>
      rcases hm : s.mapViewController with _ | c <;>
        simp [stepB, fxOnly, onPolygonClick, snackbarTexts, hm] at ht
  | circleClick id =>
      rcases hm : s.mapViewController with _ | c <;>
        simp [stepB, fxOnly, onCircleClick, snackbarTexts, hm] at ht
  | polylineClick id =>
      rcases hm : s.mapViewController with _ | c <;>
        simp [stepB, fxOnly, onPolylineClick, snackbarTexts, hm] at ht
  | markerInfoWindowTapped => simp [stepB, fxOnly, snackbarTexts] at ht
  | mapClick => simp [stepB, fxOnly, snackbarTexts] at ht

/-! The claim theorems. -/

/-- C1: overlay visibility is mutually exclusive — in every state at most one
of the two overlays is visible; the show-navigation-controls action sets the
overlay state to `NavControls` (hiding the maps-controls overlay), the
show-maps-controls action sets it to `MapControls` (hiding the
navigation-controls overlay), and `closeOverlay` sets it to `None`. -/
theorem overlay_mutually_exclusive :
    ∀ (navigationControllerPresent : Bool) (env : Env) (s : ScreenState),
      (navControlsVisible navigationControllerPresent s && mapControlsVisible s) = false
      ∧ (stepA Event.showNavControlsClick env s).state.overlayType = OverlayType.NavControls
      ∧ mapControlsVisible (stepA Event.showNavControlsClick env s).state = false
      ∧ (stepA Event.showMapsControlsClick env s).state.overlayType = OverlayType.MapControls
      ∧ navControlsVisible navigationControllerPresent
          (stepA Event.showMapsControlsClick env s).state = false
      ∧ (stepA Event.closeOverlayAction env s).state.overlayType = OverlayType.None := by
  intro nc env s
  refine ⟨?_, rfl, ?_, rfl, ?_, rfl⟩
  · cases h : s.overlayType <;>
      simp [navControlsVisible, mapControlsVisible, h]
  · simp [stepA, fxOnly, mapControlsVisible]
  · simp [stepA, fxOnly, navControlsVisible]

/-- C5: a screen-blur event sets the display flag to false and invokes the
cleanup routine exactly once; the cleanup routine clears the map view (when a
map-view controller exists), clears the navigation destinations, and tears
down the navigation controller, in that order. -/
theorem blur_cleanup :
    ∀ (env : Env) (s : ScreenState),
      (stepA Event.screenBlur env s).state = { s with displayMap := false }
      ∧ (ctrlCalls (stepA Event.screenBlur env s).effects).count CtrlCall.cleanup = 1
      ∧ (s.mapViewController.isSome = true →
          ctrlCalls (stepA Event.screenBlur env s).effects =
            [CtrlCall.clearMapView, CtrlCall.clearDestinations, CtrlCall.cleanup])
      ∧ (s.mapViewController = none →
          ctrlCalls (stepA Event.screenBlur env s).effects =
            [CtrlCall.clearDestinations, CtrlCall.cleanup]) := by
  intro env s
  rcases hm : s.mapViewController with _ | c <;>
    simp [stepA, fxOnly, cleanUpNavigation, ctrlCalls, hm, List.count_cons]

/-- C5 witness at a concrete state with a created map-view controller. -/
theorem blur_cleanup_witness :
    (stepA Event.screenBlur envOk sWithMap).state = { sWithMap with displayMap := false }
    ∧ ctrlCalls (stepA Event.screenBlur envOk sWithMap).effects =
        [CtrlCall.clearMapView, CtrlCall.clearDestinations, CtrlCall.cleanup] :=
  ⟨(blur_cleanup envOk sWithMap).1, (blur_cleanup envOk sWithMap).2.2.1 (by decide)⟩

/-- C6: each controller handle starts null, the corresponding
controller-created callback sets it to the created controller, no event ever
clears it, and over every event sequence within one mount a non-null handle
stays non-null. -/
theorem controller_handles_monotone :
    initialState.mapViewController = none
    ∧ initialState.navigationViewController = none
    ∧ (∀ (c : Nat) (env : Env) (s : ScreenState),
        (stepA (Event.mapViewControllerCreated c) env s).state.mapViewController = some c)
    ∧ (∀ (c : Nat) (env : Env) (s : ScreenState),
        (stepA (Event.navigationViewControllerCreated c) env s).state.navigationViewController
          = some c)
    ∧ (∀ (e : Event) (env : Env) (s : ScreenState),
        s.mapViewController.isSome = true →
          (stepA e env s).state.mapViewController.isSome = true)
    ∧ (∀ (e : Event) (env : Env) (s : ScreenState),
        s.navigationViewController.isSome = true →
          (stepA e env s).state.navigationViewController.isSome = true)
    ∧ (∀ (env : Env) (es : List Event) (s : ScreenState),
        s.mapViewController.isSome = true →
          (runA env es s).mapViewController.isSome = true)
    ∧ (∀ (env : Env) (es : List Event) (s : ScreenState),
        s.navigationViewController.isSome = true →
          (runA env es s).navigationViewController.isSome = true) :=
  ⟨rfl, rfl, fun _ _ _ => rfl, fun _ _ _ => rfl,
   stepA_mapViewController_mono, stepA_navigationViewController_mono,
   runA_mapViewController_mono, runA_navigationViewController_mono⟩

/-- C6 witness: a created handle survives a dispose-and-blur sequence. -/
theorem controller_handles_monotone_witness :
    (runA envOk [Event.navigationDispose, Event.screenBlur] sWithMap).mapViewController.isSome
      = true :=
  controller_handles_monotone.2.2.2.2.2.2.1 envOk
    [Event.navigationDispose, Event.screenBlur] sWithMap (by decide)

/-- C7: toggling the margin switch sends a truthy margin to null and a falsy
margin to the fixed value 50; toggling twice preserves truthiness; and over
every event sequence from the initial state the margin only takes the values
null and 50. -/
theorem margin_toggle_alternates :
    (∀ (env : Env) (s : ScreenState), marginTruthy s.margin = true →
        (stepA Event.marginSwitchToggle env s).state.margin = none)
    ∧ (∀ (env : Env) (s : ScreenState), marginTruthy s.margin = false →
        (stepA Event.marginSwitchToggle env s).state.margin = some 50)
    ∧ (∀ (env : Env) (s : ScreenState),
        marginTruthy (stepA Event.marginSwitchToggle env
          (stepA Event.marginSwitchToggle env s).state).state.margin = marginTruthy s.margin)
    ∧ (∀ (env : Env) (es : List Event),
        (runA env es initialState).margin = none
        ∨ (runA env es initialState).margin = some 50) := by
  refine ⟨?_, ?_, ?_, ?_⟩
  · intro env s h
    simp [stepA, fxOnly, h]
  · intro env s h
    simp [stepA, fxOnly, h, marginAmount]
  · intro env s
    rcases hm : s.margin with _ | v
    · simp [stepA, fxOnly, marginTruthy, marginAmount, hm]
    · cases hv : (v != 0) <;>
        simp [stepA, fxOnly, marginTruthy, marginAmount, hm, hv]
  · intro env es
    have h := runA_margin_inv env es initialState (Or.inl rfl)
    simpa [marginAmount] using h

/-- C7 witness: one toggle from the initial (null-margin) state yields 50 and
a second toggle returns truthiness to the original. -/
theorem margin_toggle_alternates_witness :
    (stepA Event.marginSwitchToggle envOk initialState).state.margin = some 50
    ∧ marginTruthy (stepA Event.marginSwitchToggle envOk
        (stepA Event.marginSwitchToggle envOk initialState).state).state.margin
      = marginTruthy initialState.margin :=
  ⟨margin_toggle_alternates.2.1 envOk initialState (by decide),
   margin_toggle_alternates.2.2.1 envOk initialState⟩

/-- C8: the callback table registered on setup is the very table deregistered
on teardown, and the two actions form a round trip on the event source's
registry. -/
theorem listeners_round_trip :
    (∃ tbl, listenersEffectSetup = ListenerAction.add tbl
      ∧ listenersEffectTeardown = ListenerAction.remove tbl)
    ∧ ∀ reg, applyListenerAction listenersEffectTeardown
        (applyListenerAction listenersEffectSetup reg) = reg := by
  refine ⟨⟨navigationCallbacks, rfl, rfl⟩, ?_⟩
  intro reg
  simp [applyListenerAction, listenersEffectSetup, listenersEffectTeardown]

/-- C9: an arrival event at the final destination stops guidance and makes no
continue/start calls; a non-final arrival continues to the next destination
and then starts guidance; in both cases the state is unchanged and exactly
one `Arrived` snackbar is shown — identically in both screens. -/
theorem arrival_behaviour :
    ∀ (env : Env) (s : ScreenState),
      ctrlCalls (stepA (Event.arrival true) env s).effects = [CtrlCall.stopGuidance]
      ∧ ctrlCalls (stepA (Event.arrival false) env s).effects =
          [CtrlCall.continueToNextDestination, CtrlCall.startGuidance]
      ∧ (∀ b, (stepA (Event.arrival b) env s).state = s)
      ∧ (∀ b, (snackbarTexts (stepA (Event.arrival b) env s).effects).count "Arrived" = 1)
      ∧ ctrlCalls (stepB (Event.arrival true) env s).effects = [CtrlCall.stopGuidance]
      ∧ ctrlCalls (stepB (Event.arrival false) env s).effects =
          [CtrlCall.continueToNextDestination, CtrlCall.startGuidance]
      ∧ (∀ b, (stepB (Event.arrival b) env s).state = s)
      ∧ (∀ b, (snackbarTexts (stepB (Event.arrival b) env s).effects).count "Arrived" = 1) := by
  intro env s
  refine ⟨rfl, rfl, ?_, ?_, rfl, rfl, ?_, ?_⟩ <;> (intro b; cases b <;> rfl)

/-- C10: the navigation-controls overlay is visible only when the
navigation-view controller exists, the navigation controller exists, and the
`navigationInitialized` flag holds; the Navigation button is disabled exactly
when the flag is false; and when the flag is false (in particular right after
`onNavigationDispose`) the overlay is not visible even if the overlay state
is `NavControls`. -/
theorem nav_overlay_requires_initialization :
    ∀ (navigationControllerPresent : Bool) (env : Env) (s : ScreenState),
      (navControlsVisible navigationControllerPresent s = true →
        s.navigationViewController.isSome = true
        ∧ navigationControllerPresent = true
        ∧ s.navigationInitialized = true)
      ∧ navButtonDisabled s = !s.navigationInitialized
      ∧ (s.navigationInitialized = false →
          navControlsVisible navigationControllerPresent s = false)
      ∧ (stepA Event.navigationDispose env s).state.navigationInitialized = false
      ∧ navControlsVisible navigationControllerPresent
          (stepA Event.navigationDispose env s).state = false := by
  intro nc env s
  refine ⟨?_, rfl, ?_, rfl, ?_⟩
  · intro h
    simp [navControlsVisible] at h
    obtain ⟨⟨⟨h1, h2⟩, h3⟩, h4⟩ := h
    exact ⟨h1, h2, h3⟩
  · intro h
    simp [navControlsVisible, h]
  · simp [stepA, onNavigationDispose, navControlsVisible]

/-- C10 witness: in a fully-initialized state the overlay is visible, and
after the dispose event it is not, even though the overlay state is still
`NavControls`. -/
theorem nav_overlay_requires_initialization_witness :
    (sNavReady.navigationViewController.isSome = true
      ∧ true = true ∧ sNavReady.navigationInitialized = true)
    ∧ navControlsVisible true (stepA Event.navigationDispose envOk sNavReady).state = false :=
  ⟨(nav_overlay_requires_initialization true envOk sNavReady).1 (by decide),
   (nav_overlay_requires_initialization true envOk sNavReady).2.2.2.2⟩

/-- C2: each of the five route-status failure codes is handled identically in
form by both screens — exactly one snackbar naming the error, no controller
calls, no state change, nothing thrown — and every error notification either
screen can ever surface is one of: a route-status failure, a camera-move
failure, a destination-setting failure, or an SDK initialization failure. -/
theorem route_failures_handled_uniformly :
    (∀ (env : Env) (s : ScreenState),
      stepA (Event.routeStatusResult RouteStatus.ROUTE_CANCELED) env s =
        fxOnly s [Effect.snackbar "Error: Route Cancelled"]
      ∧ stepA (Event.routeStatusResult RouteStatus.NO_ROUTE_FOUND) env s =
          fxOnly s [Effect.snackbar "Error: No Route Found"]
      ∧ stepA (Event.routeStatusResult RouteStatus.NETWORK_ERROR) env s =
          fxOnly s [Effect.snackbar "Error: Network Error"]
      ∧ stepA (Event.routeStatusResult RouteStatus.LOCATION_DISABLED) env s =
          fxOnly s [Effect.snackbar "Error: Location Disabled"]
      ∧ stepA (Event.routeStatusResult RouteStatus.LOCATION_UNKNOWN) env s =
          fxOnly s [Effect.snackbar "Error: Location Unknown"]
      ∧ stepB (Event.routeStatusResult RouteStatus.ROUTE_CANCELED) env s =
          fxOnly s [Effect.snackbar "Error: Route Cancelled"]
      ∧ stepB (Event.routeStatusResult RouteStatus.NO_ROUTE_FOUND) env s =
          fxOnly s [Effect.snackbar "Error: No Route Found"]
      ∧ stepB (Event.routeStatusResult RouteStatus.NETWORK_ERROR) env s =
          fxOnly s [Effect.snackbar "Error: Network Error"]
      ∧ stepB (Event.routeStatusResult RouteStatus.LOCATION_DISABLED) env s =
          fxOnly s [Effect.snackbar "Error: Location Disabled"]
      ∧ stepB (Event.routeStatusResult RouteStatus.LOCATION_UNKNOWN) env s =
          fxOnly s [Effect.snackbar "Error: Location Unknown"])
    ∧ (∀ (e : Event) (env : Env) (s : ScreenState) (t : String),
        t ∈ snackbarTexts (stepA e env s).effects → isErrorText t = true →
          allowedErrorText t)
    ∧ (∀ (e : Event) (env : Env) (s : ScreenState) (t : String),
        t ∈ snackbarTexts (stepB e env s).effects → isErrorText t = true →
          allowedErrorText t) :=
  ⟨fun _ _ => ⟨rfl, rfl, rfl, rfl, rfl, rfl, rfl, rfl, rfl, rfl⟩,
   stepA_error_snackbars, stepB_error_snackbars⟩

/-- C2 witness: the network-error code at a concrete state yields exactly the
one snackbar, and that text is accounted for by the closed error set. -/
theorem route_failures_handled_uniformly_witness :
    stepA (Event.routeStatusResult RouteStatus.NETWORK_ERROR) envOk initialState =
      fxOnly initialState [Effect.snackbar "Error: Network Error"]
    ∧ allowedErrorText "Error: Network Error" :=
  ⟨(route_failures_handled_uniformly.1 envOk initialState).2.2.1,
   route_failures_handled_uniformly.2.1
     (Event.routeStatusResult RouteStatus.NETWORK_ERROR) envOk initialState
     "Error: Network Error" (by decide) (by decide)⟩

/-- C3 counterexample: on the navigation-ready event (both controllers
created, nothing failing) the two screens perform different controller-call
sequences, and the difference is not a coordinate literal, log output, or the
recenter action: screen B calls `showRouteOverview`, which screen A never
does. -/
theorem screens_differ_beyond_cosmetics :
    ctrlCalls (stepA Event.navigationReady envOk sBothCtrls).effects ≠
      ctrlCalls (stepB Event.navigationReady envOk sBothCtrls).effects
    ∧ CtrlCall.showRouteOverview ∈
        ctrlCalls (stepB Event.navigationReady envOk sBothCtrls).effects
    ∧ CtrlCall.showRouteOverview ∉
        ctrlCalls (stepA Event.navigationReady envOk sBothCtrls).effects := by
  refine ⟨by decide, by decide, by decide⟩

/-- C3 (amended): the two screens perform the same state update on every
event, and on every event other than navigation-ready, route-status-OK and
the recenter click they produce the very same handler result; on those three
events they differ beyond coordinates and logging (routing options, error
guarding, an extra `showRouteOverview` call, and camera recentering). -/
theorem screens_agree_off_known_differences :
    ∀ (e : Event) (env : Env) (s : ScreenState),
      (stepA e env s).state = (stepB e env s).state
      ∧ (e ≠ Event.navigationReady → e ≠ Event.routeStatusResult RouteStatus.OK →
          e ≠ Event.recenterButtonClick → stepA e env s = stepB e env s) := by
  intro e env s
  constructor
  · cases e <;>
      first
        | rfl
        | (simp only [stepA, stepB, onNavigationReadyA, onNavigationReadyB]
           split <;> rfl)
  · intro h1 h2 h3
    cases e <;>
      first
        | rfl
        | exact absurd rfl h1
        | exact absurd rfl h3
        | (rename_i st
           cases st <;> first | rfl | exact absurd rfl h2)

/-- C3 witness: on a blur event at a concrete state the two screens agree
exactly. -/
theorem screens_agree_off_known_differences_witness :
    stepA Event.screenBlur envOk sBothCtrls = stepB Event.screenBlur envOk sBothCtrls :=
  (screens_agree_off_known_differences Event.screenBlur envOk sBothCtrls).2
    (by decide) (by decide) (by decide)

/-- C4 counterexample: with the map-view controller created and the camera
move failing, screen B's navigation-ready handler lets the exception escape
and shows no snackbar at all, so not every camera-move failure is caught
locally and surfaced. -/
theorem camera_failure_escapes_screenB :
    (stepB Event.navigationReady envCameraFail sWithMap).thrown = true
    ∧ snackbarTexts (stepB Event.navigationReady envCameraFail sWithMap).effects = [] := by
  refine ⟨by decide, by decide⟩

/-- C4 (amended): screen A catches every failure locally — no event handler
of screen A ever lets an exception escape, and camera-move,
destination-setting and SDK-initialization failures each surface their
snackbar; screen B catches SDK-initialization failures the same way and
throws only from its navigation-ready handler, where an uncaught camera-move
failure escapes. -/
theorem failures_caught_and_surfaced :
    (∀ (e : Event) (env : Env) (s : ScreenState), (stepA e env s).thrown = false)
    ∧ (∀ (env : Env) (s : ScreenState),
        env.cameraFails = true → s.mapViewController.isSome = true →
          "Error moving camera" ∈
              snackbarTexts (stepA Event.navigationReady env s).effects
          ∧ "Error moving camera" ∈
              snackbarTexts (stepA Event.recenterButtonClick env s).effects
          ∧ "Error moving camera" ∈
              snackbarTexts (stepA (Event.routeStatusResult RouteStatus.OK) env s).effects)
    ∧ (∀ (env : Env) (s : ScreenState),
        env.navigatorFails = true →
          "Error initializing navigator" ∈
              snackbarTexts (stepA Event.mapReady env s).effects
          ∧ "Error initializing navigator" ∈
              snackbarTexts (stepB Event.mapReady env s).effects
          ∧ (stepB Event.mapReady env s).thrown = false)
    ∧ (∀ (env : Env) (s : ScreenState),
        env.setDestinationsFails = true →
          "Error setting destinations" ∈
            snackbarTexts (stepA Event.navigationReady env s).effects)
    ∧ (∀ (e : Event) (env : Env) (s : ScreenState),
        e ≠ Event.navigationReady → (stepB e env s).thrown = false) := by
  refine ⟨?_, ?_, ?_, ?_, ?_⟩
  · intro e env s
    cases e <;> rfl
  · intro env s hc hm
    rcases hm2 : s.mapViewController with _ | c
    · rw [hm2] at hm
      exact absurd hm (by decide)
    · refine ⟨?_, ?_, ?_⟩ <;>
        simp [stepA, fxOnly, onNavigationReadyA, onRecenterButtonClickA,
              onRouteStatusResultA, onRouteStatusOkA, moveCameraToStartingSpotA,
              createWayPoints, wayPointsA, snackbarTexts, hm2, hc]
  · intro env s hn
    refine ⟨?_, ?_, rfl⟩ <;>
      simp [stepA, stepB, fxOnly, onMapReady, snackbarTexts, hn]
  · intro env s hd
    rcases hm2 : s.mapViewController with _ | c <;>
      cases hc : env.cameraFails <;>
        simp [stepA, onNavigationReadyA, moveCameraToStartingSpotA,
              createWayPoints, wayPointsA, snackbarTexts, hm2, hc, hd]
  · intro e env s h
    cases e <;> first | rfl | exact absurd rfl h

/-- C4 witness: at a concrete state with the camera failing, screen A's
navigation-ready handler throws nothing and surfaces the camera-failure
snackbar. -/
theorem failures_caught_and_surfaced_witness :
    (stepA Event.navigationReady envCameraFail sWithMap).thrown = false
    ∧ "Error moving camera" ∈
        snackbarTexts (stepA Event.navigationReady envCameraFail sWithMap).effects :=
  ⟨failures_caught_and_surfaced.1 Event.navigationReady envCameraFail sWithMap,
   (failures_caught_and_surfaced.2.1 envCameraFail sWithMap (by decide) (by decide)).1⟩

end NavSdkExample
